import Mathlib

/-!
Shallow embedding of `torch_xla/csrc/runtime/ifrt_computation_client.cc`
(the IFRT computation client of the torch_xla runtime).

Modelling conventions:
* C++ machine integers in this file are small counts and ids; they are
  modelled as `Nat` (no arithmetic here ever approaches overflow).
* `XLA_CHECK` / `XLA_CHECK_EQ` / `XLA_CHECK_OK` / `XLA_ERROR` and
  `StatusOr::value()` / `ConsumeValue` failures terminate the call
  abnormally; they are modelled by `Outcome.fatal`.  A function that would
  hand an error *value* back to its caller (a returned `Status` /
  `StatusOr` error) would be `Outcome.err`; the two are kept distinct
  because the spec distinguishes "fatal checks" from "propagated failures".
* External collaborators (the IFRT compiler, the device driver's execute,
  `CopyToHostBuffer`, `FullyReplicatedShard`, the base-class
  `GetCompilationDevices`) are oracles carried in an `Env` record.
* Metrics counters (`StableHloCompileCounter`, `CreateCompileHandlesCounter`,
  the `ReplicateShardedData` counter, ...) are explicit fields of a state
  record `St` threaded through the operations.
-/

/-- Outcome of a client call: normal return, an abnormal termination raised
by a `XLA_CHECK*` / `XLA_ERROR` / `.value()` (fatal check), or an error
value handed back to the caller (a propagated `Status`). -/
inductive Outcome (α : Type) where
  | ok (a : α)
  | fatal (msg : String)
  | err (msg : String)
deriving DecidableEq

/-- `true` iff the outcome is a propagated error value (never a fatal check). -/
def Outcome.isErr {α : Type} : Outcome α → Bool
  | .err _ => true
  | _ => false

/-- `true` iff the outcome is an abnormal `XLA_CHECK`-style termination. -/
def Outcome.isFatal {α : Type} : Outcome α → Bool
  | .fatal _ => true
  | _ => false

/-- A shape: the dimensions of an `xla::Shape` / `xla::ifrt::Shape`
(element type and layout play no role in the verified properties and are
abstracted away; `xla::ifrt::Shape(shape.dimensions())` is the identity on
this model). -/
structure Shape where
  dims : List Nat
deriving DecidableEq

/-- An opaque `xla::OpSharding` partition-spec proto, identified by a tag. -/
structure OpSharding where
  tag : Nat
deriving DecidableEq

/-- A physical `xla::ifrt::Array`: either a fresh single-device buffer made
from a host tensor (`MakeArrayFromHostBuffer` with `SingleDeviceSharding`),
or an array assembled from per-shard buffers over a device list
(`AssembleArrayFromSingleDeviceArrays` with a `ConcreteSharding`), or an
opaque buffer produced by the external executor / replication shard. -/
inductive IfrtArray where
  | fromHost (deviceId : Nat) (shape : Shape) (tensorId : Nat)
  | assembled (deviceIds : List Nat) (shape : Shape) (parts : List IfrtArray)
  | opaqueBuf (deviceIds : List Nat) (shape : Shape) (tag : Nat)

/-- The device set of the array's `sharding()` (`sharding().devices()`). -/
def IfrtArray.shardingDeviceIds : IfrtArray → List Nat
  | .fromHost d _ _ => [d]
  | .assembled ds _ _ => ds
  | .opaqueBuf ds _ _ => ds

/-- The array's `shape()`. -/
def IfrtArray.arrShape : IfrtArray → Shape
  | .fromHost _ s _ => s
  | .assembled _ s _ => s
  | .opaqueBuf _ s _ => s

/-- `IfrtComputationClient::IfrtData`: device string, logical `xla::Shape`,
an owned reference to the physical array (null for unrealized
placeholders), and the optional `xla::OpSharding`.  Modelled from the spec:
the handle's field layout lives in the header
`ifrt_computation_client.h`, which is not part of the sources; the spec's
data model ("device + shape only, no buffer", "sharded ... with an attached
sharding descriptor") fixes these four fields. -/
structure IfrtData where
  device : String
  shape : Shape
  buffer : Option IfrtArray
  sharding : Option OpSharding

/-- Modelled from the spec: `HasSharding()` — "presence [of the sharding
descriptor] distinguishes sharded from unsharded handles". -/
def IfrtData.HasSharding (d : IfrtData) : Bool :=
  d.sharding.isSome

/-- `IfrtComputationClient::IfrtData::Assign` (ifrt_computation_client.cc,
lines 145-151).  The C++ guard `&pjrt_data != this` compares object
addresses; object identity is modelled by the explicit `sameObject` flag
(`sameObject = true` corresponds to `d` and `self` being one object).
Only the `buffer` member is written. -/
def IfrtData.Assign (self : IfrtData) (d : IfrtData) (sameObject : Bool) : IfrtData :=
  if sameObject then self else { self with buffer := d.buffer }

/-- The `XlaCoordinator` constructed by `InitializeCoordinator`
(rank, world size, master address, port). -/
structure XlaCoordinator where
  globalRank : Nat
  worldSize : Nat
  masterAddr : String
  port : String
deriving DecidableEq

/-- Mutable state of the client: the lazily created coordinator plus the
metrics counters touched by the embedded operations. -/
structure St where
  coordinator : Option XlaCoordinator
  stableHloCompileCounter : Nat
  createCompileHandlesCounter : Nat
  replicateShardedDataCounter : Nat
  createDataHandlesCounter : Nat
  outboundBytes : Nat
  inboundBytes : Nat
deriving DecidableEq

/-- `IfrtComputationClient::CoordinatorInitialized` (lines 125-127). -/
def CoordinatorInitialized (st : St) : Bool :=
  st.coordinator.isSome

/-- `IfrtComputationClient::InitializeCoordinator` (lines 129-137):
`XLA_CHECK(coordinator_ == nullptr)` then constructs the coordinator. -/
def InitializeCoordinator (st : St) (globalRank worldSize : Nat)
    (masterAddr port : String) : Outcome St :=
  match st.coordinator with
  | some _ => .fatal "Can only initialize the XlaCoordinator once."
  | none =>
      .ok { st with coordinator := some ⟨globalRank, worldSize, masterAddr, port⟩ }

/-- `IfrtComputationClient::GetCoordinator` (lines 139-143):
`XLA_CHECK(coordinator_ != nullptr)` then dereferences it. -/
def GetCoordinator (st : St) : Outcome XlaCoordinator :=
  match st.coordinator with
  | none => .fatal "XlaCoordinator has not been initialized"
  | some c => .ok c

/-- The two members released by `IfrtComputationClient::~IfrtComputationClient`. -/
inductive TeardownStep where
  | releaseClient
  | releaseCoordinator
deriving DecidableEq

/-- `IfrtComputationClient::~IfrtComputationClient` (lines 118-123), as the
sequence of member releases it performs: `client_ = nullptr;` and then
`coordinator_ = nullptr;` (the source comment: "the PjRtClient depends on
the DistributedRuntimeClient tracked in XlaCoordinator, so the PjRtClient
must be destroyed first"). -/
def destructorTeardownOrder : List TeardownStep :=
  [.releaseClient, .releaseCoordinator]

/-- Position of a step in the destructor's release sequence. -/
def teardownIndex (s : TeardownStep) : Nat :=
  destructorTeardownOrder.indexOf s

/-- Liveness of the two members after the destructor has executed its first
`n` release steps (both start live). -/
def aliveAfter (n : Nat) : Bool × Bool :=
  ((destructorTeardownOrder.take n).all (· ≠ .releaseClient),
   (destructorTeardownOrder.take n).all (· ≠ .releaseCoordinator))

/-! ### Device registry (constructor, lines 96-116) -/

/-- The `xla::ifrt::PjRtClient` as the embedding sees it: the driver ids of
all enumerated devices (`client_->devices()`, possibly sparse ids), the
driver ids of the addressable ones (`client_->addressable_devices()`), and
the platform name.  PjRtDevice ids are unique per client; theorems that
depend on the registry carry that as a `Nodup` hypothesis. -/
structure IfrtClient where
  deviceIds : List Nat
  addressableDeviceIds : List Nat
  platform : String
deriving DecidableEq

/-- `client_->device_count()`. -/
def IfrtClient.deviceCount (c : IfrtClient) : Nat :=
  c.deviceIds.length

/-- Insert an id into an ascending list (helper for the sort below). -/
def insertAsc (x : Nat) : List Nat → List Nat
  | [] => [x]
  | y :: ys => if x ≤ y then x :: y :: ys else y :: insertAsc x ys

/-- The `std::partial_sort_copy` in the constructor (lines 103-106): all
device ids ordered by increasing id (structural insertion sort, which
agrees with any comparison sort on `· ≤ ·`). -/
def sortedDeviceIds : List Nat → List Nat
  | [] => []
  | x :: xs => insertAsc x (sortedDeviceIds xs)

/-- `global_ordinals_[device->id()] = global_ordinals_.size()` over the
sorted devices (lines 107-108): pairs `(driver id, global ordinal)`, the
ordinal being the running size of the map, starting at `k`. -/
def assignOrdinalsFrom : List Nat → Nat → List (Nat × Nat)
  | [], _ => []
  | id :: rest, k => (id, k) :: assignOrdinalsFrom rest (k + 1)

/-- The `global_ordinals_` map built by the constructor: driver id →
dense global ordinal, in increasing-id order. -/
def globalOrdinals (c : IfrtClient) : List (Nat × Nat) :=
  assignOrdinalsFrom (sortedDeviceIds c.deviceIds) 0

/-- `global_ordinals_.at(id)` (line 79); devices handed to
`PjRtDeviceToString` were always registered at enumeration time, so the
`.at` lookup is modelled total with a default. -/
def ordinalOf (c : IfrtClient) (id : Nat) : Nat :=
  ((globalOrdinals c).lookup id).getD 0

/-- `absl::AsciiStrToUpper`: upper-case every character (structural form
of `String.toUpper`). -/
def asciiStrToUpper (s : String) : String :=
  ⟨s.data.map Char.toUpper⟩

/-- `IfrtComputationClient::PjRtDeviceToString` (lines 75-82):
`"<UPPERCASE_PLATFORM>:<global ordinal>"`. -/
def PjRtDeviceToString (c : IfrtClient) (id : Nat) : String :=
  asciiStrToUpper c.platform ++ ":" ++ toString (ordinalOf c id)

/-- The `string_to_device_` table built by the constructor (lines 107-111):
device string → driver id, over all devices in increasing-id order. -/
def stringToDeviceMap (c : IfrtClient) : List (String × Nat) :=
  (sortedDeviceIds c.deviceIds).map (fun id => (PjRtDeviceToString c id, id))

/-- `IfrtComputationClient::StringToPjRtDevice` (lines 674-680):
`XLA_CHECK` that the string is registered, then the table lookup. -/
def StringToPjRtDevice (c : IfrtClient) (device : String) : Outcome Nat :=
  match (stringToDeviceMap c).lookup device with
  | some id => .ok id
  | none => .fatal ("Unknown device " ++ device)

/-- `IfrtComputationClient::GetLocalDevices` (lines 641-643): the strings
of all addressable devices. -/
def GetLocalDevices (c : IfrtClient) : List String :=
  c.addressableDeviceIds.map (PjRtDeviceToString c)

/-- `IfrtComputationClient::GetDefaultDevice` (lines 637-639):
`addressable_devices()[0]`; indexing an empty vector is abnormal. -/
def GetDefaultDevice (c : IfrtClient) : Outcome String :=
  match c.addressableDeviceIds with
  | [] => .fatal "no addressable devices"
  | d :: _ => .ok (PjRtDeviceToString c d)

/-! ### Compiler bridge (`Compile`, lines 404-482) -/

/-- An `xla::DeviceAssignment(rows, cols)` in row-major order; `none`
entries were never written (C++ value-initializes them instead; `Option`
records writtenness). -/
structure DeviceAssignment where
  rows : Nat
  cols : Nat
  entries : List (Option Nat)
deriving DecidableEq

/-- Write driver ids into the assignment storage: for each pair
`(device_id, global_ordinal)`, set the slot at linear index
`global_ordinal` to `device_id` (in the sharded path the slot is
`(0, ordinal)` of a 1×n matrix, in the unsharded path `(ordinal, 0)` of an
n×1 matrix — both are linear index `ordinal`).  The C++ iterates the
unordered map in unspecified order; the theorems below hold for any order
because ordinals are pairwise distinct. -/
def writeOrdinalEntries : List (Nat × Nat) → List (Option Nat) → List (Option Nat)
  | [], row => row
  | (id, g) :: rest, row => writeOrdinalEntries rest (row.set g (some id))

/-- The device assignment built by both paths of `Compile`
(lines 429-434 and 446-451): one slot per device, slot `ordinal` holding
that ordinal's driver id. -/
def ordinalDeviceEntries (c : IfrtClient) : List (Option Nat) :=
  writeOrdinalEntries (globalOrdinals c) (List.replicate c.deviceCount none)

/-- The intermediate computation representation submitted for compilation:
either the identity (add-zero) computation built by
`ReplicateShardedData`, or an arbitrary caller-supplied program. -/
inductive XlaComputationRepr where
  | replicateIdentity (shape : Shape) (inputSharding : OpSharding)
  | externalProgram (tag : Nat)

/-- A `ComputationClient::CompileInstance` (the fields this translation
unit reads or constructs; declared in `computation_client.h`). -/
structure CompileInstance where
  computation : XlaComputationRepr
  compilationDevice : String
  devices : List String
  outputShape : Option Shape
  shouldWrapParameter : Bool
  parameterIsTupledArguments : Bool
  isSharded : Bool
  allowSpmdShardingPropagationToOutput : Bool

/-- The `xla::CompileOptions` fields set by `Compile`. -/
structure CompileOptions where
  useSpmdPartitioning : Bool
  allowSpmdShardingPropagationToOutput : Option Bool
  numPartitions : Nat
  numReplicas : Nat
  parameterIsTupledArguments : Bool
  deviceAssignment : DeviceAssignment

/-- The option-building prefix of the per-instance `Compile` loop
(lines 411-454): the sharded branch enables SPMD partitioning, sets
`num_partitions = device_count`, `num_replicas = 1` and a 1×n device
assignment; the unsharded branch sets `num_partitions = 1`,
`num_replicas = device_count` and an n×1 device assignment. -/
def buildCompileOptions (c : IfrtClient) (inst : CompileInstance) : CompileOptions :=
  if inst.isSharded then
    { useSpmdPartitioning := true
      allowSpmdShardingPropagationToOutput :=
        some inst.allowSpmdShardingPropagationToOutput
      numPartitions := c.deviceCount
      numReplicas := 1
      parameterIsTupledArguments := inst.parameterIsTupledArguments
      deviceAssignment := ⟨1, c.deviceCount, ordinalDeviceEntries c⟩ }
  else
    { useSpmdPartitioning := false
      allowSpmdShardingPropagationToOutput := none
      numPartitions := 1
      numReplicas := c.deviceCount
      parameterIsTupledArguments := inst.parameterIsTupledArguments
      deviceAssignment := ⟨c.deviceCount, 1, ordinalDeviceEntries c⟩ }

/-- An `xla::ifrt::LoadedExecutable` produced by the external IFRT
compiler: its run-time behaviour (`Execute`, whose `result.outputs` are the
produced arrays) and its reported `GetOutputShardings()`.  Arguments are
the handles' buffers, which may be null references. -/
structure LoadedExecutable where
  run : List (Option IfrtArray) → List IfrtArray
  outputShardings : Option (List OpSharding)

/-- `IfrtComputationClient::IfrtComputation`: the compiled executable paired
with the instance's device list (the `XlaComputation` proto it also stores
is never read by the verified operations). -/
structure IfrtComputation where
  devices : List String
  executable : LoadedExecutable

/-- External collaborators of the translation unit, as oracles. -/
structure Env where
  client : IfrtClient
  /-- `client_->GetDefaultCompiler()->Compile(...)` wrapped in
  `ConsumeValue`: `none` is a compilation error (which `ConsumeValue`
  turns into an abnormal termination). -/
  compileOracle : CompileInstance → CompileOptions → Option LoadedExecutable
  /-- Whether `CopyToHostBuffer(...).Await()` resolves to an ok
  `Status` for a given array. -/
  copyOk : IfrtArray → Bool
  /-- `array->FullyReplicatedShard(kAlwaysCopy)`; the code dereferences the
  `StatusOr` unconditionally, so the oracle is total. -/
  fullyReplicatedShard : IfrtArray → IfrtArray
  /-- Base-class `GetCompilationDevices` (computation_client.cc, not part
  of the sources): the compilation device list for a device. -/
  compilationDevices : String → List String

/-! ### `Compile` (lines 404-482) -/

/-- One iteration of the `Compile` loop: build the options, run the
external compiler (`ConsumeValue` on its result), bump
`StableHloCompileCounter` and `CreateCompileHandlesCounter`, and wrap the
executable with the instance's devices. -/
def compileOne (env : Env) (st : St) (inst : CompileInstance) :
    Outcome (IfrtComputation × St) :=
  let opts := buildCompileOptions env.client inst
  match env.compileOracle inst opts with
  | none => .fatal "compilation failed"
  | some executable =>
      .ok (⟨inst.devices, executable⟩,
        { st with
          stableHloCompileCounter := st.stableHloCompileCounter + 1,
          createCompileHandlesCounter := st.createCompileHandlesCounter + 1 })

/-- `IfrtComputationClient::Compile` (lines 404-482): each instance is
compiled in order; a failing instance aborts the whole call. -/
def Compile (env : Env) (st : St) :
    List CompileInstance → Outcome (List IfrtComputation × St)
  | [] => .ok ([], st)
  | inst :: rest =>
      match compileOne env st inst with
      | .fatal m => .fatal m
      | .err m => .err m
      | .ok (comp, st') =>
          match Compile env st' rest with
          | .fatal m => .fatal m
          | .err m => .err m
          | .ok (comps, st'') => .ok (comp :: comps, st'')

/-! ### `ExecuteReplicated` (lines 574-631) and `ExecuteComputation` -/

/-- `ExecuteReplicatedOptions` (the field this unit reads). -/
structure ExecuteReplicatedOptions where
  explodeTuple : Bool

/-- An output handle of `ExecuteReplicated`:
`IfrtData("SPMD:0", results[i], output_shardings[i])` — the device is the
reserved virtual multi-device string, the shape comes from the buffer, the
buffer and sharding are attached. -/
def mkSpmdData (arr : IfrtArray) (os : OpSharding) : IfrtData :=
  ⟨"SPMD:0", arr.arrShape, some arr, some os⟩

/-- `IfrtComputationClient::ExecuteReplicated` (lines 574-631): gather the
argument buffers positionally, run the executable once, `XLA_CHECK` that
output shardings are reported, `XLA_CHECK_EQ` their count against the
output count, and tag every output with `"SPMD:0"` and its reported
sharding. -/
def ExecuteReplicated (_env : Env) (st : St) (computation : IfrtComputation)
    (arguments : List IfrtData) (_devices : List String)
    (_options : ExecuteReplicatedOptions) : Outcome (List IfrtData × St) :=
  let argumentHandles := arguments.map (·.buffer)
  let results := computation.executable.run argumentHandles
  match computation.executable.outputShardings with
  | none => .fatal "executable reports no output shardings"
  | some oss =>
      if oss.length = results.length then
        .ok ((results.zip oss).map (fun p => mkSpmdData p.1 p.2), st)
      else .fatal "output sharding count mismatch"

/-- `IfrtComputationClient::ExecuteComputation` (lines 484-572): the body
is `XLA_ERROR() << __FUNCTION__ << " not implemented"` (the rest of the
function is commented out in the source). -/
def ExecuteComputation (_env : Env) (_st : St) (_computation : IfrtComputation)
    (_arguments : List IfrtData) (_device : String) (_explodeTuple : Bool) :
    Outcome (List IfrtData × St) :=
  .fatal "ExecuteComputation not implemented"

/-- `IfrtComputationClient::CopyToDevice` (lines 306-309):
`XLA_ERROR() << __FUNCTION__ << " not implemented"`. -/
def CopyToDevice (_env : Env) (_st : St) (_data : IfrtData) (_dst : String) :
    Outcome (IfrtData × St) :=
  .fatal "CopyToDevice not implemented"

/-! ### Transfer engine -/

/-- A host-side `TensorSource`: target device string, logical shape, and a
token identifying the host bytes. -/
structure TensorSource where
  device : String
  shape : Shape
  tensorId : Nat

/-- `xla::ShapeUtil::ByteSizeOf` up to the (constant) element width:
the element count of the shape. -/
def byteSizeOf (s : Shape) : Nat :=
  s.dims.prod

/-- The `TransferToServer` loop body over the remaining tensors
(lines 238-261), carrying the accumulated handles (reversed) and
`total_size`.  `MakeArrayFromHostBuffer` produces a fresh single-device
buffer (its `.value()` failure modes are the driver's, outside this
model); the resulting handle is unsharded. -/
def transferToServerGo (env : Env) :
    List TensorSource → List IfrtData → Nat → Outcome (List IfrtData × Nat)
  | [], acc, totalSize => .ok (acc.reverse, totalSize)
  | tensor :: rest, acc, totalSize =>
      match StringToPjRtDevice env.client tensor.device with
      | .fatal m => .fatal m
      | .err m => .err m
      | .ok pjrtDeviceId =>
          let buffer := IfrtArray.fromHost pjrtDeviceId tensor.shape tensor.tensorId
          let data : IfrtData := ⟨tensor.device, tensor.shape, some buffer, none⟩
          transferToServerGo env rest (data :: acc) (totalSize + byteSizeOf tensor.shape)

/-- `IfrtComputationClient::TransferToServer` (lines 230-266): per-tensor
device resolution and host-to-device copy, then the outbound-bytes metric
sample and the data-handles counter. -/
def TransferToServer (env : Env) (st : St) (tensors : List TensorSource) :
    Outcome (List IfrtData × St) :=
  match transferToServerGo env tensors [] 0 with
  | .fatal m => .fatal m
  | .err m => .err m
  | .ok (datas, totalSize) =>
      .ok (datas,
        { st with
          outboundBytes := st.outboundBytes + totalSize,
          createDataHandlesCounter := st.createDataHandlesCounter + datas.length })

/-- The shard-collection loop shared by `WrapDataShards` (lines 197-203)
and `TransferShardsToServer` (lines 280-286): `arrays.push_back(buffer)`
and `shard_shapes.push_back(buffer->shape())` per shard; a null buffer
would be dereferenced (abnormal). -/
def collectShardArrays : List IfrtData → Outcome (List IfrtArray × List Shape)
  | [] => .ok ([], [])
  | d :: rest =>
      match d.buffer with
      | none => .fatal "null shard buffer"
      | some a =>
          match collectShardArrays rest with
          | .fatal m => .fatal m
          | .err m => .err m
          | .ok (as, ss) => .ok (a :: as, a.arrShape :: ss)

/-- `xla::ifrt::ConcreteSharding::Create` over the client's addressable
devices followed by `client_->AssembleArrayFromSingleDeviceArrays(...)
.value()` (external library): the `ConcreteSharding` constructor
`CHECK_EQ`s the device-list size against the shard-shape count, and
assembly yields one sharded array over those devices. -/
def assembleSharded (c : IfrtClient) (ifrtShape : Shape)
    (shardShapes : List Shape) (arrays : List IfrtArray) : Outcome IfrtArray :=
  if shardShapes.length = c.addressableDeviceIds.length then
    .ok (.assembled c.addressableDeviceIds ifrtShape arrays)
  else .fatal "shard count inconsistent with sharding device set"

/-- `IfrtComputationClient::WrapDataShards` (lines 189-222): an empty shard
list yields an unrealized sharded placeholder; otherwise collect the shard
buffers, `XLA_CHECK_EQ(shard_shapes.size(), devices_list.size())`, and
assemble them into one sharded array. -/
def WrapDataShards (env : Env) (st : St) (shards : List IfrtData)
    (device : String) (shape : Shape) (sharding : OpSharding) :
    Outcome (IfrtData × St) :=
  if shards.length = 0 then
    .ok (⟨device, shape, none, some sharding⟩, st)
  else
    match collectShardArrays shards with
    | .fatal m => .fatal m
    | .err m => .err m
    | .ok (arrays, shardShapes) =>
        if shardShapes.length = env.client.addressableDeviceIds.length then
          match assembleSharded env.client ⟨shape.dims⟩ shardShapes arrays with
          | .fatal m => .fatal m
          | .err m => .err m
          | .ok arr => .ok (⟨device, shape, some arr, some sharding⟩, st)
        else .fatal "shard count does not match addressable device count"

/-- `IfrtComputationClient::TransferShardsToServer` (lines 268-304):
`TransferToServer` on every shard, then assembly of the per-shard buffers
into one sharded array over the addressable devices (the shard-count
consistency check lives in the `ConcreteSharding` constructor here — this
function has no `XLA_CHECK_EQ` of its own). -/
def TransferShardsToServer (env : Env) (st : St)
    (tensorShards : List TensorSource) (device : String) (shape : Shape)
    (sharding : OpSharding) : Outcome (IfrtData × St) :=
  match TransferToServer env st tensorShards with
  | .fatal m => .fatal m
  | .err m => .err m
  | .ok (dataShards, st') =>
      match collectShardArrays dataShards with
      | .fatal m => .fatal m
      | .err m => .err m
      | .ok (arrays, shardShapes) =>
          match assembleSharded env.client ⟨shape.dims⟩ shardShapes arrays with
          | .fatal m => .fatal m
          | .err m => .err m
          | .ok arr => .ok (⟨device, shape, some arr, some sharding⟩, st')

/-! ### Replication (`ReplicateShardedData`, lines 311-369) and
`TransferFromServer` (lines 371-402) -/

/-- `IfrtData::GetSharding` (lines 153-156): `XLA_CHECK(HasSharding())`. -/
def IfrtData.GetSharding (d : IfrtData) : Outcome OpSharding :=
  match d.sharding with
  | none => .fatal "Check HasSharding first"
  | some s => .ok s

/-- `IfrtComputationClient::ReplicateShardedData` (lines 311-369).
Fast path: a buffer whose sharding spans one device is returned as is.
Slow path: bump the `ReplicateShardedData` counter, build the identity
(add-zero) computation annotated with the handle's sharding, compile it as
a sharded single-use instance, `XLA_CHECK_EQ` the buffer's device count
against the local device count, execute once with the handle as sole
argument, and take the first output's fully replicated shard. -/
def ReplicateShardedData (env : Env) (st : St) (handle : IfrtData) :
    Outcome (IfrtArray × St) :=
  match handle.buffer with
  | none => .fatal "null buffer"
  | some buf =>
      if buf.shardingDeviceIds.length = 1 then
        .ok (buf, st)
      else
        let st := { st with
          replicateShardedDataCounter := st.replicateShardedDataCounter + 1 }
        match handle.GetSharding with
        | .fatal m => .fatal m
        | .err m => .err m
        | .ok inputSharding =>
            match GetDefaultDevice env.client with
            | .fatal m => .fatal m
            | .err m => .err m
            | .ok device =>
                -- the instance built at lines 349-353; the
                -- `parameter_is_tupled_arguments` field is left at its
                -- default (false) by this construction
                let inst : CompileInstance :=
                  { computation := .replicateIdentity handle.shape inputSharding
                    compilationDevice := device
                    devices := env.compilationDevices device
                    outputShape := some handle.shape
                    shouldWrapParameter := false
                    parameterIsTupledArguments := false
                    isSharded := true
                    allowSpmdShardingPropagationToOutput := false }
                match Compile env st [inst] with
                | .fatal m => .fatal m
                | .err m => .err m
                | .ok (computations, st) =>
                    if buf.shardingDeviceIds.length = (GetLocalDevices env.client).length then
                      match computations with
                      | [] => .fatal "no compiled computation"
                      | comp :: _ =>
                          match ExecuteReplicated env st comp [handle]
                              (GetLocalDevices env.client) ⟨false⟩ with
                          | .fatal m => .fatal m
                          | .err m => .err m
                          | .ok (shardedResults, st) =>
                              match shardedResults with
                              | [] => .fatal "no execution result"
                              | r :: _ =>
                                  match r.buffer with
                                  | none => .fatal "null result buffer"
                                  | some out =>
                                      .ok (env.fullyReplicatedShard out, st)
                    else .fatal "sharded buffer device count differs from local device count"

/-- A host `xla::Literal`: its (host) shape and the device array whose
contents were copied into it. -/
structure Literal where
  shape : Shape
  source : IfrtArray

/-- `xla::ShapeUtil::DeviceShapeToHostShape` (external): layout
normalization; dimensions are preserved, which is all this model records. -/
def deviceShapeToHostShape (s : Shape) : Shape := s

/-- The `TransferFromServer` loop (lines 379-398): replicate each handle,
allocate the host literal from the handle's shape (the byte-stride
computation of lines 388-390 cannot fail for these dense shapes), and
`XLA_CHECK_OK` the awaited `CopyToHostBuffer` future — an unsuccessful
copy is an abnormal `XLA_CHECK` termination, not a returned error. -/
def transferFromServerGo (env : Env) :
    St → List IfrtData → List Literal → Nat → Outcome (List Literal × St × Nat)
  | st, [], acc, totalSize => .ok (acc.reverse, st, totalSize)
  | st, handle :: rest, acc, totalSize =>
      match ReplicateShardedData env st handle with
      | .fatal m => .fatal m
      | .err m => .err m
      | .ok (replicatedArray, st) =>
          if env.copyOk replicatedArray then
            let literal : Literal :=
              ⟨deviceShapeToHostShape handle.shape, replicatedArray⟩
            transferFromServerGo env st rest (literal :: acc)
              (totalSize + byteSizeOf literal.shape)
          else .fatal "copy to host buffer failed"

/-- `IfrtComputationClient::TransferFromServer` (lines 371-402): the loop
above followed by the inbound-bytes metric sample. -/
def TransferFromServer (env : Env) (st : St) (handles : List IfrtData) :
    Outcome (List Literal × St) :=
  match transferFromServerGo env st handles [] 0 with
  | .fatal m => .fatal m
  | .err m => .err m
  | .ok (literals, st, totalSize) =>
      .ok (literals, { st with inboundBytes := st.inboundBytes + totalSize })

/-! ### Concrete sample instances (used to evaluate the verified
operations on explicit inputs) -/

/-- A single-device CPU client. -/
def sampleClient : IfrtClient := ⟨[0], [0], "CPU"⟩

/-- An array produced by the external executor. -/
def sampleOutArr : IfrtArray := .opaqueBuf [0] ⟨[2]⟩ 9

/-- A sharding descriptor reported by an executable. -/
def sampleOutSharding : OpSharding := ⟨3⟩

/-- An executable producing one output with one reported sharding. -/
def sampleExec : LoadedExecutable := ⟨fun _ => [sampleOutArr], some [sampleOutSharding]⟩

/-- An environment whose external calls all succeed. -/
def sampleEnv : Env :=
  ⟨sampleClient, fun _ _ => some sampleExec, fun _ => true, fun a => a, fun d => [d]⟩

/-- The same environment except that every copy-to-host future resolves to
an error. -/
def copyFailEnv : Env := { sampleEnv with copyOk := fun _ => false }

/-- The client state at startup. -/
def sampleSt0 : St := ⟨none, 0, 0, 0, 0, 0, 0⟩

/-- A state whose coordinator has been initialized. -/
def sampleStInit : St := ⟨some ⟨0, 2, "addr", "1234"⟩, 0, 0, 0, 0, 0, 0⟩

/-- A single-device buffer. -/
def sampleArr : IfrtArray := .fromHost 0 ⟨[2]⟩ 5

/-- An unsharded handle owning `sampleArr`. -/
def sampleHandle : IfrtData := ⟨"CPU:0", ⟨[2]⟩, some sampleArr, none⟩

/-- A host tensor targeting the CPU device. -/
def sampleTensor : TensorSource := ⟨"CPU:0", ⟨[2]⟩, 1⟩

/-- The handle `TransferToServer` creates for `sampleTensor`. -/
def sampleShardData : IfrtData := ⟨"CPU:0", ⟨[2]⟩, some (.fromHost 0 ⟨[2]⟩ 1), none⟩

/-- The state after transferring `sampleTensor` (one data handle, two
outbound elements). -/
def sampleStAfterTransfer : St := ⟨none, 0, 0, 0, 1, 2, 0⟩

/-- A compiled computation wrapping `sampleExec`. -/
def sampleComputation : IfrtComputation := ⟨["CPU:0"], sampleExec⟩

/-- A two-device client with sparse, unsorted driver ids (7 and 3). -/
def c6Client : IfrtClient := ⟨[7, 3], [7, 3], "TPU"⟩

/-- A sharded compile instance for `c6Client`. -/
def c6Inst : CompileInstance :=
  ⟨.externalProgram 0, "TPU:0", ["TPU:0", "TPU:1"], none, false, false, true, true⟩

/-! ## Claims -/

/-- C1: the claim states that the coordinator is torn down strictly before
the device-client handle.  In the destructor (lines 118-123) it is the
other way around: `client_` is released first (position 0), `coordinator_`
second (position 1), so the coordinator's release does not precede the
client's. -/
theorem c1_coordinator_not_released_first :
    teardownIndex .releaseClient = 0 ∧
    teardownIndex .releaseCoordinator = 1 ∧
    decide (teardownIndex .releaseCoordinator < teardownIndex .releaseClient)
      = false := by
  decide

/-- C1 (amended): during destruction the local device-client handle is
released strictly before the coordinator, and the coordinator is still
live at the moment the client handle is released (the client may depend on
the coordinator's distributed runtime client). -/
theorem c1_client_released_before_coordinator :
    teardownIndex .releaseClient < teardownIndex .releaseCoordinator ∧
    (aliveAfter (teardownIndex .releaseClient)).2 = true := by
  decide

/-- C7: `WrapDataShards` on an empty shard list succeeds and returns an
unrealized sharded placeholder: no physical buffer, yet `HasSharding()`
holds with the supplied sharding descriptor. -/
theorem c7_empty_shards_placeholder (env : Env) (st : St) (device : String)
    (shape : Shape) (sharding : OpSharding) :
    WrapDataShards env st [] device shape sharding =
      .ok (⟨device, shape, none, some sharding⟩, st) ∧
    (⟨device, shape, none, some sharding⟩ : IfrtData).buffer = none ∧
    IfrtData.HasSharding ⟨device, shape, none, some sharding⟩ = true :=
  ⟨rfl, rfl, rfl⟩

/-- C9: `ExecuteComputation` and `CopyToDevice` abort with a fatal
"not implemented" error on all inputs; neither ever returns a result or
an error value. -/
theorem c9_not_implemented (env : Env) (st : St) (computation : IfrtComputation)
    (arguments : List IfrtData) (device : String) (explodeTuple : Bool)
    (data : IfrtData) (dst : String) :
    ExecuteComputation env st computation arguments device explodeTuple =
      .fatal "ExecuteComputation not implemented" ∧
    CopyToDevice env st data dst = .fatal "CopyToDevice not implemented" :=
  ⟨rfl, rfl⟩

/-- C10: `Assign` from a distinct source overwrites only the physical
buffer reference: device string, shape and sharding descriptor are kept
(whatever the source's sharding is), and self-assignment changes
nothing. -/
theorem c10_assign_frame (h d : IfrtData) :
    (h.Assign d false).buffer = d.buffer ∧
    (h.Assign d false).device = h.device ∧
    (h.Assign d false).shape = h.shape ∧
    (h.Assign d false).sharding = h.sharding ∧
    h.Assign d true = h :=
  ⟨rfl, rfl, rfl, rfl, rfl⟩

/-- C8: the coordinator is initialized at most once per process — a second
`InitializeCoordinator` after a successful one hits the fatal check, and
`GetCoordinator` while uninitialized hits the fatal check. -/
theorem c8_initialize_once (st st' : St) (gr ws gr2 ws2 : Nat)
    (addr port addr2 port2 : String) :
    (InitializeCoordinator st gr ws addr port = .ok st' →
      InitializeCoordinator st' gr2 ws2 addr2 port2 =
        .fatal "Can only initialize the XlaCoordinator once.") ∧
    (CoordinatorInitialized st = false →
      GetCoordinator st = .fatal "XlaCoordinator has not been initialized") := by
  constructor
  · intro hinit
    unfold InitializeCoordinator at hinit ⊢
    cases hc : st.coordinator with
    | some c => rw [hc] at hinit; exact absurd hinit (by simp)
    | none =>
        rw [hc] at hinit
        have hst' : st' = { st with coordinator := some ⟨gr, ws, addr, port⟩ } := by
          cases hinit; rfl
        rw [hst']
  · intro hun
    unfold CoordinatorInitialized at hun
    unfold GetCoordinator
    cases hc : st.coordinator with
    | some c => rw [hc] at hun; simp at hun
    | none => rfl

/-- Witness for C8 at a concrete initialized / uninitialized state. -/
theorem c8_initialize_once_witness :
    InitializeCoordinator sampleStInit 1 2 "addr" "1234" =
      .fatal "Can only initialize the XlaCoordinator once." ∧
    GetCoordinator sampleSt0 = .fatal "XlaCoordinator has not been initialized" := by
  have h := c8_initialize_once sampleSt0 sampleStInit 0 2 1 2 "addr" "1234" "addr" "1234"
  exact ⟨h.1 rfl, h.2 rfl⟩

/-- C4: replicating a handle whose physical array spans exactly one device
returns that very buffer, with the client state — in particular every
compile counter — unchanged: no compilation or execution is triggered. -/
theorem c4_replicate_single_device_noop (env : Env) (st : St)
    (handle : IfrtData) (buf : IfrtArray) (hb : handle.buffer = some buf)
    (h1 : buf.shardingDeviceIds.length = 1) :
    ReplicateShardedData env st handle = .ok (buf, st) := by
  unfold ReplicateShardedData
  rw [hb]
  simp [h1]

/-- Witness for C4 on a concrete single-device handle. -/
theorem c4_replicate_single_device_noop_witness :
    ReplicateShardedData sampleEnv sampleSt0 sampleHandle = .ok (sampleArr, sampleSt0) :=
  c4_replicate_single_device_noop sampleEnv sampleSt0 sampleHandle sampleArr rfl rfl

/-- C5: `ExecuteReplicated` fails fatally when the executable reports no
output shardings or a sharding count different from the output count; on
success every produced handle is tagged with the virtual multi-device
string `"SPMD:0"` and, positionally, the sharding descriptor the
executable reported for it. -/
theorem c5_execute_replicated_outputs (env : Env) (st : St)
    (computation : IfrtComputation) (arguments : List IfrtData)
    (devices : List String) (options : ExecuteReplicatedOptions) :
    (computation.executable.outputShardings = none →
      ExecuteReplicated env st computation arguments devices options =
        .fatal "executable reports no output shardings") ∧
    (∀ oss, computation.executable.outputShardings = some oss →
      oss.length ≠ (computation.executable.run (arguments.map (·.buffer))).length →
      ExecuteReplicated env st computation arguments devices options =
        .fatal "output sharding count mismatch") ∧
    (∀ oss outs stOut, computation.executable.outputShardings = some oss →
      ExecuteReplicated env st computation arguments devices options =
        .ok (outs, stOut) →
      (outs.all (fun o => o.device == "SPMD:0")) = true ∧
      outs.map (·.sharding) = oss.map some) := by
  refine ⟨fun hnone => ?_, fun oss hsome hne => ?_, fun oss outs stOut hsome hok => ?_⟩
  · unfold ExecuteReplicated
    rw [hnone]
  · unfold ExecuteReplicated
    rw [hsome]
    simp [hne]
  · unfold ExecuteReplicated at hok
    rw [hsome] at hok
    dsimp only at hok
    by_cases hlen :
        oss.length = (computation.executable.run (arguments.map (·.buffer))).length
    · rw [if_pos hlen] at hok
      have houts :
          outs = ((computation.executable.run (arguments.map (·.buffer))).zip oss).map
            (fun p => mkSpmdData p.1 p.2) := by
        cases hok; rfl
      subst houts
      constructor
      · simp only [List.all_eq_true, List.mem_map, Prod.exists, mkSpmdData]
        rintro x ⟨a, s, hmem, rfl⟩
        rfl
      · rw [List.map_map]
        have hsnd :
            ((computation.executable.run (arguments.map (·.buffer))).zip oss).map
                ((fun d => d.sharding) ∘ fun p => mkSpmdData p.1 p.2) =
              ((computation.executable.run (arguments.map (·.buffer))).zip oss).map
                (fun p => some p.2) := by
          simp [mkSpmdData]
        rw [hsnd]
        have : ((computation.executable.run (arguments.map (·.buffer))).zip oss).map
            (fun p => some p.2) =
            (((computation.executable.run (arguments.map (·.buffer))).zip oss).map
              Prod.snd).map some := by
          rw [List.map_map]; rfl
        rw [this, List.map_snd_zip _ _ (le_of_eq hlen)]
    · rw [if_neg hlen] at hok
      exact absurd hok (by simp)

/-- Witness for C5 on a concrete executable with one output and one
reported sharding. -/
theorem c5_execute_replicated_outputs_witness :
    ([mkSpmdData sampleOutArr sampleOutSharding].all
      (fun o => o.device == "SPMD:0")) = true ∧
    [mkSpmdData sampleOutArr sampleOutSharding].map (·.sharding) =
      [sampleOutSharding].map some := by
  have h := (c5_execute_replicated_outputs sampleEnv sampleSt0 sampleComputation []
    ["CPU:0"] ⟨false⟩).2.2 [sampleOutSharding]
    [mkSpmdData sampleOutArr sampleOutSharding] sampleSt0 rfl rfl
  exact h

/-! ### No operation of this translation unit ever returns an error value:
every failure is an `XLA_CHECK`-style abnormal termination. -/

theorem stringToPjRtDevice_not_err (c : IfrtClient) (s : String) :
    (StringToPjRtDevice c s).isErr = false := by
  unfold StringToPjRtDevice
  split <;> rfl

theorem getDefaultDevice_not_err (c : IfrtClient) :
    (GetDefaultDevice c).isErr = false := by
  unfold GetDefaultDevice
  split <;> rfl

theorem getSharding_not_err (d : IfrtData) :
    d.GetSharding.isErr = false := by
  unfold IfrtData.GetSharding
  split <;> rfl

theorem transferToServerGo_not_err (env : Env) :
    ∀ (ts : List TensorSource) (acc : List IfrtData) (n : Nat),
      (transferToServerGo env ts acc n).isErr = false := by
  intro ts
  induction ts with
  | nil => intro acc n; rfl
  | cons t rest ih =>
      intro acc n
      unfold transferToServerGo
      cases h : StringToPjRtDevice env.client t.device with
      | fatal m => rfl
      | err m =>
          have hne := stringToPjRtDevice_not_err env.client t.device
          rw [h] at hne
          exact absurd hne (by simp [Outcome.isErr])
      | ok pjrtDeviceId => exact ih _ _

theorem transferToServer_not_err (env : Env) (st : St) (ts : List TensorSource) :
    (TransferToServer env st ts).isErr = false := by
  unfold TransferToServer
  cases h : transferToServerGo env ts [] 0 with
  | fatal m => rfl
  | err m =>
      have hne := transferToServerGo_not_err env ts [] 0
      rw [h] at hne
      exact absurd hne (by simp [Outcome.isErr])
  | ok p => cases p; rfl

theorem collectShardArrays_not_err :
    ∀ shards : List IfrtData, (collectShardArrays shards).isErr = false := by
  intro shards
  induction shards with
  | nil => rfl
  | cons d rest ih =>
      unfold collectShardArrays
      cases hb : d.buffer with
      | none => rfl
      | some a =>
          cases h : collectShardArrays rest with
          | fatal m => rfl
          | err m => rw [h] at ih; exact absurd ih (by simp [Outcome.isErr])
          | ok p => cases p; rfl

theorem assembleSharded_not_err (c : IfrtClient) (s : Shape)
    (ss : List Shape) (as : List IfrtArray) :
    (assembleSharded c s ss as).isErr = false := by
  unfold assembleSharded
  split <;> rfl

theorem compileOne_not_err (env : Env) (st : St) (inst : CompileInstance) :
    (compileOne env st inst).isErr = false := by
  unfold compileOne
  dsimp only
  split <;> rfl

theorem compile_not_err (env : Env) :
    ∀ (insts : List CompileInstance) (st : St),
      (Compile env st insts).isErr = false := by
  intro insts
  induction insts with
  | nil => intro st; rfl
  | cons inst rest ih =>
      intro st
      unfold Compile
      cases h : compileOne env st inst with
      | fatal m => rfl
      | err m =>
          have hne := compileOne_not_err env st inst
          rw [h] at hne
          exact absurd hne (by simp [Outcome.isErr])
      | ok p =>
          obtain ⟨comp, st'⟩ := p
          dsimp only
          cases h2 : Compile env st' rest with
          | fatal m => rfl
          | err m =>
              have hne := ih st'
              rw [h2] at hne
              exact absurd hne (by simp [Outcome.isErr])
          | ok p2 => cases p2; rfl

theorem executeReplicated_not_err (env : Env) (st : St)
    (computation : IfrtComputation) (arguments : List IfrtData)
    (devices : List String) (options : ExecuteReplicatedOptions) :
    (ExecuteReplicated env st computation arguments devices options).isErr = false := by
  unfold ExecuteReplicated
  cases computation.executable.outputShardings with
  | none => rfl
  | some oss => dsimp only; split <;> rfl

theorem replicateShardedData_not_err (env : Env) (st : St) (handle : IfrtData) :
    (ReplicateShardedData env st handle).isErr = false := by
  unfold ReplicateShardedData
  cases hb : handle.buffer with
  | none => rfl
  | some buf =>
      dsimp only
      by_cases h1 : buf.shardingDeviceIds.length = 1
      · simp [h1, Outcome.isErr]
      · rw [if_neg h1]
        cases hs : handle.GetSharding with
        | fatal m => rfl
        | err m =>
            have hne := getSharding_not_err handle
            rw [hs] at hne
            exact absurd hne (by simp [Outcome.isErr])
        | ok inputSharding =>
            dsimp only
            cases hd : GetDefaultDevice env.client with
            | fatal m => rfl
            | err m =>
                have hne := getDefaultDevice_not_err env.client
                rw [hd] at hne
                exact absurd hne (by simp [Outcome.isErr])
            | ok device =>
                dsimp only
                cases hcpl : Compile env
                    { st with replicateShardedDataCounter :=
                        st.replicateShardedDataCounter + 1 }
                    [{ computation := .replicateIdentity handle.shape inputSharding
                       compilationDevice := device
                       devices := env.compilationDevices device
                       outputShape := some handle.shape
                       shouldWrapParameter := false
                       parameterIsTupledArguments := false
                       isSharded := true
                       allowSpmdShardingPropagationToOutput := false }] with
                | fatal m => rfl
                | err m =>
                    have hne := compile_not_err env
                      [{ computation := .replicateIdentity handle.shape inputSharding
                         compilationDevice := device
                         devices := env.compilationDevices device
                         outputShape := some handle.shape
                         shouldWrapParameter := false
                         parameterIsTupledArguments := false
                         isSharded := true
                         allowSpmdShardingPropagationToOutput := false }]
                      { st with replicateShardedDataCounter :=
                          st.replicateShardedDataCounter + 1 }
                    rw [hcpl] at hne
                    exact absurd hne (by simp [Outcome.isErr])
                | ok p =>
                    obtain ⟨computations, st2⟩ := p
                    dsimp only
                    split
                    · cases computations with
                      | nil => rfl
                      | cons comp crest =>
                          dsimp only
                          cases hex : ExecuteReplicated env st2 comp [handle]
                              (GetLocalDevices env.client) ⟨false⟩ with
                          | fatal m => rfl
                          | err m =>
                              have hne := executeReplicated_not_err env st2 comp
                                [handle] (GetLocalDevices env.client) ⟨false⟩
                              rw [hex] at hne
                              exact absurd hne (by simp [Outcome.isErr])
                          | ok p2 =>
                              obtain ⟨shardedResults, st3⟩ := p2
                              cases shardedResults with
                              | nil => rfl
                              | cons r rrest =>
                                  dsimp only
                                  cases r.buffer <;> rfl
                    · rfl

theorem transferFromServerGo_not_err (env : Env) :
    ∀ (handles : List IfrtData) (st : St) (acc : List Literal) (n : Nat),
      (transferFromServerGo env st handles acc n).isErr = false := by
  intro handles
  induction handles with
  | nil => intro st acc n; rfl
  | cons h rest ih =>
      intro st acc n
      unfold transferFromServerGo
      cases hr : ReplicateShardedData env st h with
      | fatal m => rfl
      | err m =>
          have hne := replicateShardedData_not_err env st h
          rw [hr] at hne
          exact absurd hne (by simp [Outcome.isErr])
      | ok p =>
          obtain ⟨arr, st'⟩ := p
          dsimp only
          cases hc : env.copyOk arr with
          | false => simp [hc, Outcome.isErr]
          | true => simp only [hc, if_true]; exact ih _ _ _

/-- C2 (amended): `TransferFromServer` never hands an error value back to
its caller; when the awaited copy-to-host future of a handle resolves
unsuccessfully, the call terminates with the fatal `XLA_CHECK_OK` — the
same process-terminating policy as the contract-violation checks. -/
theorem c2_copy_failure_is_fatal_check (env : Env) (st : St)
    (handles : List IfrtData) (d : IfrtData) (rest : List IfrtData)
    (buf : IfrtArray) (st' : St) :
    (TransferFromServer env st handles).isErr = false ∧
    (ReplicateShardedData env st d = .ok (buf, st') →
      env.copyOk buf = false →
      TransferFromServer env st (d :: rest) = .fatal "copy to host buffer failed") := by
  constructor
  · unfold TransferFromServer
    cases h : transferFromServerGo env st handles [] 0 with
    | fatal m => rfl
    | err m =>
        have hne := transferFromServerGo_not_err env handles st [] 0
        rw [h] at hne
        exact absurd hne (by simp [Outcome.isErr])
    | ok p => obtain ⟨ls, st2, n⟩ := p; rfl
  · intro hrep hcopy
    unfold TransferFromServer
    unfold transferFromServerGo
    rw [hrep]
    dsimp only
    rw [hcopy]
    rfl

/-- Witness for C2 (amended) at a concrete single-device handle whose copy
future fails. -/
theorem c2_copy_failure_is_fatal_check_witness :
    (TransferFromServer copyFailEnv sampleSt0 [sampleHandle]).isErr = false ∧
    TransferFromServer copyFailEnv sampleSt0 [sampleHandle] =
      .fatal "copy to host buffer failed" := by
  have h := c2_copy_failure_is_fatal_check copyFailEnv sampleSt0 [sampleHandle]
    sampleHandle [] sampleArr sampleSt0
  exact ⟨h.1, h.2 rfl rfl⟩

/-- C2: the claim as stated — that a failed copy-to-host is propagated to
the caller as an error value rather than a fatal check — is false at a
concrete input: the copy future fails and `TransferFromServer` terminates
with the fatal check, returning no error value. -/
theorem c2_counterexample :
    copyFailEnv.copyOk sampleArr = false ∧
    TransferFromServer copyFailEnv sampleSt0 [sampleHandle] =
      .fatal "copy to host buffer failed" ∧
    (TransferFromServer copyFailEnv sampleSt0 [sampleHandle]).isErr = false :=
  ⟨rfl, rfl, rfl⟩

/-! ### Length bookkeeping for the transfer loops -/

theorem transferToServerGo_length (env : Env) :
    ∀ (ts : List TensorSource) (acc : List IfrtData) (n : Nat)
      (datas : List IfrtData) (total : Nat),
      transferToServerGo env ts acc n = .ok (datas, total) →
      datas.length = ts.length + acc.length := by
  intro ts
  induction ts with
  | nil =>
      intro acc n datas total h
      unfold transferToServerGo at h
      cases h
      simp
  | cons t rest ih =>
      intro acc n datas total h
      unfold transferToServerGo at h
      cases hs : StringToPjRtDevice env.client t.device with
      | fatal m => rw [hs] at h; exact absurd h (by simp)
      | err m => rw [hs] at h; exact absurd h (by simp)
      | ok pjrtDeviceId =>
          rw [hs] at h
          dsimp only at h
          have h2 := ih _ _ _ _ h
          simp only [List.length_cons] at h2 ⊢
          omega

theorem transferToServer_length (env : Env) (st : St) (ts : List TensorSource)
    (datas : List IfrtData) (st' : St) :
    TransferToServer env st ts = .ok (datas, st') → datas.length = ts.length := by
  intro h
  unfold TransferToServer at h
  cases hg : transferToServerGo env ts [] 0 with
  | fatal m => rw [hg] at h; exact absurd h (by simp)
  | err m => rw [hg] at h; exact absurd h (by simp)
  | ok p =>
      obtain ⟨ds, total⟩ := p
      rw [hg] at h
      dsimp only at h
      have hd : ds = datas := by cases h; rfl
      subst hd
      have h2 := transferToServerGo_length env ts [] 0 ds total hg
      simpa using h2

theorem collectShardArrays_length :
    ∀ (shards : List IfrtData) (arrays : List IfrtArray) (ss : List Shape),
      collectShardArrays shards = .ok (arrays, ss) →
      arrays.length = shards.length ∧ ss.length = shards.length := by
  intro shards
  induction shards with
  | nil =>
      intro arrays ss h
      cases h
      exact ⟨rfl, rfl⟩
  | cons d rest ih =>
      intro arrays ss h
      unfold collectShardArrays at h
      cases hb : d.buffer with
      | none => rw [hb] at h; exact absurd h (by simp)
      | some a =>
          rw [hb] at h
          dsimp only at h
          cases hc : collectShardArrays rest with
          | fatal m => rw [hc] at h; exact absurd h (by simp)
          | err m => rw [hc] at h; exact absurd h (by simp)
          | ok p =>
              obtain ⟨as, ss'⟩ := p
              rw [hc] at h
              dsimp only at h
              have h2 := ih as ss' hc
              cases h
              simp only [List.length_cons]
              omega

/-- C3: `TransferShardsToServer` fails fatally whenever the shard count is
inconsistent with the device set of the sharding used for assembly (the
full addressable device set), and otherwise transfers each shard
independently via `TransferToServer` and assembles the per-shard buffers
into one sharded physical array over that device set. -/
theorem c3_transfer_shards_to_server (env : Env) (st : St)
    (tensorShards : List TensorSource) (device : String) (shape : Shape)
    (sharding : OpSharding) :
    (tensorShards.length ≠ env.client.addressableDeviceIds.length →
      (TransferShardsToServer env st tensorShards device shape sharding).isFatal
        = true) ∧
    (∀ dataShards st' arrays ss,
      TransferToServer env st tensorShards = .ok (dataShards, st') →
      collectShardArrays dataShards = .ok (arrays, ss) →
      tensorShards.length = env.client.addressableDeviceIds.length →
      TransferShardsToServer env st tensorShards device shape sharding =
        .ok (⟨device, shape,
              some (.assembled env.client.addressableDeviceIds ⟨shape.dims⟩ arrays),
              some sharding⟩, st')) := by
  constructor
  · intro hne
    unfold TransferShardsToServer
    cases ht : TransferToServer env st tensorShards with
    | fatal m => rfl
    | err m =>
        have h := transferToServer_not_err env st tensorShards
        rw [ht] at h
        exact absurd h (by simp [Outcome.isErr])
    | ok p =>
        obtain ⟨dataShards, st'⟩ := p
        have hlen := transferToServer_length env st tensorShards dataShards st' ht
        dsimp only
        cases hc : collectShardArrays dataShards with
        | fatal m => rfl
        | err m =>
            have h := collectShardArrays_not_err dataShards
            rw [hc] at h
            exact absurd h (by simp [Outcome.isErr])
        | ok q =>
            obtain ⟨arrays, ss⟩ := q
            have hss := (collectShardArrays_length dataShards arrays ss hc).2
            dsimp only
            unfold assembleSharded
            have hcond : ss.length ≠ env.client.addressableDeviceIds.length := by
              rw [hss, hlen]; exact hne
            rw [if_neg hcond]
            rfl
  · intro dataShards st' arrays ss ht hc hlenEq
    unfold TransferShardsToServer
    rw [ht]
    dsimp only
    rw [hc]
    dsimp only
    unfold assembleSharded
    have hcond : ss.length = env.client.addressableDeviceIds.length := by
      rw [(collectShardArrays_length dataShards arrays ss hc).2,
        transferToServer_length env st tensorShards dataShards st' ht, hlenEq]
    rw [if_pos hcond]

/-- Witness for C3: a shard list of the wrong size fails fatally; a
matching one-shard transfer to the one-device client assembles the
transferred buffer into a sharded array. -/
theorem c3_transfer_shards_to_server_witness :
    (TransferShardsToServer sampleEnv sampleSt0 [] "CPU:0" ⟨[2]⟩ ⟨0⟩).isFatal
      = true ∧
    TransferShardsToServer sampleEnv sampleSt0 [sampleTensor] "CPU:0" ⟨[2]⟩ ⟨0⟩ =
      .ok (⟨"CPU:0", ⟨[2]⟩,
            some (.assembled [0] ⟨[2]⟩ [.fromHost 0 ⟨[2]⟩ 1]),
            some ⟨0⟩⟩, sampleStAfterTransfer) := by
  constructor
  · exact (c3_transfer_shards_to_server sampleEnv sampleSt0 [] "CPU:0" ⟨[2]⟩ ⟨0⟩).1
      (by decide)
  · exact (c3_transfer_shards_to_server sampleEnv sampleSt0 [sampleTensor] "CPU:0"
      ⟨[2]⟩ ⟨0⟩).2 [sampleShardData] sampleStAfterTransfer
      [.fromHost 0 ⟨[2]⟩ 1] [⟨[2]⟩] rfl rfl rfl

/-! ### The device assignment built by the sharded compile path -/

theorem insertAsc_length (x : Nat) :
    ∀ l : List Nat, (insertAsc x l).length = l.length + 1 := by
  intro l
  induction l with
  | nil => rfl
  | cons y ys ih =>
      unfold insertAsc
      split
      · simp
      · simp [ih]

theorem sortedDeviceIds_length :
    ∀ l : List Nat, (sortedDeviceIds l).length = l.length := by
  intro l
  induction l with
  | nil => rfl
  | cons x xs ih =>
      unfold sortedDeviceIds
      rw [insertAsc_length, ih]
      rfl

theorem set_append_cons (x : Option Nat) :
    ∀ (pre : List (Option Nat)) (v : Option Nat) (rest : List (Option Nat)),
      (pre ++ v :: rest).set pre.length x = pre ++ x :: rest := by
  intro pre
  induction pre with
  | nil => intro v rest; rfl
  | cons p ps ih =>
      intro v rest
      simp only [List.cons_append, List.length_cons, List.set, List.append_eq]
      rw [ih]

theorem writeOrdinalEntries_fill :
    ∀ (xs : List Nat) (pre : List (Option Nat)),
      writeOrdinalEntries (assignOrdinalsFrom xs pre.length)
        (pre ++ List.replicate xs.length none) = pre ++ xs.map some := by
  intro xs
  induction xs with
  | nil => intro pre; rfl
  | cons x xs ih =>
      intro pre
      unfold assignOrdinalsFrom
      unfold writeOrdinalEntries
      simp only [List.length_cons, List.replicate_succ]
      rw [set_append_cons]
      have hstep : pre ++ some x :: List.replicate xs.length none =
          (pre ++ [some x]) ++ List.replicate xs.length none := by simp
      have hlen : pre.length + 1 = (pre ++ [some x]).length := by simp
      rw [hstep, hlen, ih (pre ++ [some x])]
      simp

theorem ordinalDeviceEntries_eq (c : IfrtClient) :
    ordinalDeviceEntries c = (sortedDeviceIds c.deviceIds).map some := by
  unfold ordinalDeviceEntries globalOrdinals IfrtClient.deviceCount
  rw [show c.deviceIds.length = (sortedDeviceIds c.deviceIds).length from
    (sortedDeviceIds_length c.deviceIds).symm]
  have h := writeOrdinalEntries_fill (sortedDeviceIds c.deviceIds) []
  simpa using h

theorem assignOrdinalsFrom_mem :
    ∀ (xs : List Nat) (k id g : Nat),
      (id, g) ∈ assignOrdinalsFrom xs k → k ≤ g ∧ xs.get? (g - k) = some id := by
  intro xs
  induction xs with
  | nil => intro k id g h; simp [assignOrdinalsFrom] at h
  | cons x xs ih =>
      intro k id g h
      unfold assignOrdinalsFrom at h
      rcases List.mem_cons.mp h with heq | hmem
      · injection heq with h1 h2
        subst h1; subst h2
        exact ⟨le_refl _, by simp⟩
      · have h2 := ih (k + 1) id g hmem
        refine ⟨by omega, ?_⟩
        have hg : g - k = (g - (k + 1)) + 1 := by omega
        rw [hg]
        simpa using h2.2

/-- C6: for a sharded compile instance, `Compile` configures
`num_partitions` = total device count, `num_replicas` = 1, and a device
assignment of exactly 1 row and `device_count` columns whose entry at
column `g` is the driver device id whose global ordinal is `g` (the `g`-th
smallest driver id). -/
theorem c6_sharded_device_assignment (c : IfrtClient) (inst : CompileInstance)
    (hsh : inst.isSharded = true) :
    (buildCompileOptions c inst).numPartitions = c.deviceCount ∧
    (buildCompileOptions c inst).numReplicas = 1 ∧
    (buildCompileOptions c inst).deviceAssignment.rows = 1 ∧
    (buildCompileOptions c inst).deviceAssignment.cols = c.deviceCount ∧
    (buildCompileOptions c inst).deviceAssignment.entries =
      (sortedDeviceIds c.deviceIds).map some ∧
    (∀ id g, (id, g) ∈ globalOrdinals c →
      (buildCompileOptions c inst).deviceAssignment.entries.get? g =
        some (some id)) := by
  have hopts : buildCompileOptions c inst =
      { useSpmdPartitioning := true
        allowSpmdShardingPropagationToOutput :=
          some inst.allowSpmdShardingPropagationToOutput
        numPartitions := c.deviceCount
        numReplicas := 1
        parameterIsTupledArguments := inst.parameterIsTupledArguments
        deviceAssignment := ⟨1, c.deviceCount, ordinalDeviceEntries c⟩ } := by
    simp [buildCompileOptions, hsh]
  rw [hopts]
  refine ⟨rfl, rfl, rfl, rfl, ordinalDeviceEntries_eq c, ?_⟩
  intro id g hmem
  have h := assignOrdinalsFrom_mem (sortedDeviceIds c.deviceIds) 0 id g hmem
  dsimp only
  rw [ordinalDeviceEntries_eq c, List.get?_map]
  have h2 := h.2
  rw [Nat.sub_zero] at h2
  rw [h2]
  rfl

/-- Witness for C6 at a concrete two-device client with sparse, unsorted
driver ids 7 and 3 (ordinal 0 ↦ id 3, ordinal 1 ↦ id 7). -/
theorem c6_sharded_device_assignment_witness :
    c6Inst.isSharded = true ∧
    (buildCompileOptions c6Client c6Inst).numPartitions = c6Client.deviceCount ∧
    (buildCompileOptions c6Client c6Inst).numReplicas = 1 ∧
    (buildCompileOptions c6Client c6Inst).deviceAssignment.rows = 1 ∧
    (buildCompileOptions c6Client c6Inst).deviceAssignment.cols =
      c6Client.deviceCount ∧
    (buildCompileOptions c6Client c6Inst).deviceAssignment.entries =
      (sortedDeviceIds c6Client.deviceIds).map some ∧
    (sortedDeviceIds c6Client.deviceIds).map some = [some 3, some 7] := by
  have h := c6_sharded_device_assignment c6Client c6Inst rfl
  exact ⟨rfl, h.1, h.2.1, h.2.2.1, h.2.2.2.1, h.2.2.2.2.1, by decide⟩

